import Mathlib

/-!
Verification development for the agent-development-kit samples repository.

The tool functions of `samples/02_sequential_workflow/data_processor.py` and
`samples/03_parallel_processing/data_aggregator.py` are embedded shallowly:
Python strings become `List Char`, dictionaries become structures whose
optional keys become `Option` fields (so that `dict.get` with a default is
`Option.getD`), and the single `datetime.now().isoformat()` call each
function performs is passed in as an explicit `ts : String` argument.
-/

namespace ADKSamples

/-- Whitespace tokenizer accumulator: models Python `str.split()` (split on
runs of whitespace, dropping empty tokens). `acc` holds the current word in
reverse order. -/
def splitWordsAux : List Char → List Char → List (List Char)
  | [], acc => if acc.isEmpty then [] else [acc.reverse]
  | c :: rest, acc =>
    if c.isWhitespace then
      if acc.isEmpty then splitWordsAux rest []
      else acc.reverse :: splitWordsAux rest []
    else splitWordsAux rest (c :: acc)

/-- Python `input_text.split()`. -/
def splitWords (cs : List Char) : List (List Char) :=
  splitWordsAux cs []

/-- Python `word[0].isupper()`; every word produced by `splitWords` is
nonempty, so the head access is safe in the source. -/
def headIsUpper : List Char → Bool
  | [] => false
  | c :: _ => c.isUpper

/-- The characters stripped by `word.strip('.,!?')` in the source. -/
def isPunctChar (c : Char) : Bool :=
  c == '.' || c == ',' || c == '!' || c == '?'

/-- Python `word.strip('.,!?')`: remove the given characters from both ends. -/
def stripPunct (w : List Char) : List Char :=
  ((w.dropWhile isPunctChar).reverse.dropWhile isPunctChar).reverse

/-- Does `needle` occur at the front of the second list? -/
def matchesFront : List Char → List Char → Bool
  | [], _ => true
  | _ :: _, [] => false
  | a :: as, b :: bs => a == b && matchesFront as bs

/-- Python substring test `needle in hay`. -/
def hasSubstr (needle : List Char) : List Char → Bool
  | [] => matchesFront needle []
  | c :: rest => matchesFront needle (c :: rest) || hasSubstr needle rest

mutual

/-- Scanner for `re.findall(r'\d+(?:\.\d+)?', input_text)`: outside a number,
skip until a digit starts an integer part. -/
def scanNumbers : List Char → List (List Char)
  | [] => []
  | c :: cs => if c.isDigit then scanIntPart cs [c] else scanNumbers cs

/-- Inside the integer part of a number; `acc` is the match so far, reversed. -/
def scanIntPart : List Char → List Char → List (List Char)
  | [], acc => [acc.reverse]
  | c :: cs, acc =>
    if c.isDigit then scanIntPart cs (c :: acc)
    else if c == '.' then scanAfterDot cs acc
    else acc.reverse :: scanNumbers cs

/-- Just consumed a '.' after an integer part: it joins the match only when a
digit follows, otherwise the integer part alone is emitted. -/
def scanAfterDot : List Char → List Char → List (List Char)
  | [], acc => [acc.reverse]
  | c :: cs, acc =>
    if c.isDigit then scanFracPart cs (c :: '.' :: acc)
    else acc.reverse :: scanNumbers cs

/-- Inside the fractional part of a number. -/
def scanFracPart : List Char → List Char → List (List Char)
  | [], acc => [acc.reverse]
  | c :: cs, acc =>
    if c.isDigit then scanFracPart cs (c :: acc)
    else acc.reverse :: scanNumbers cs

end

/-- Domain terms whose presence marks `content_type = "business"`. -/
def businessTerms : List (List Char) :=
  ["sales".toList, "revenue".toList, "profit".toList, "business".toList]

/-- Domain terms whose presence marks `content_type = "customer_feedback"`. -/
def feedbackTerms : List (List Char) :=
  ["customer".toList, "feedback".toList, "review".toList, "satisfaction".toList]

/-- Domain terms whose presence marks `content_type = "product"`. -/
def productTerms : List (List Char) :=
  ["product".toList, "launch".toList, "feature".toList, "development".toList]

/-- The `content_type` determination of `extract_data`: each keyword list is
tested with `word.lower() in input_text.lower()`. -/
def contentTypeOf (input_text : List Char) : String :=
  let low := input_text.map Char.toLower
  if businessTerms.any (fun t => hasSubstr (t.map Char.toLower) low) then "business"
  else if feedbackTerms.any (fun t => hasSubstr (t.map Char.toLower) low) then "customer_feedback"
  else if productTerms.any (fun t => hasSubstr (t.map Char.toLower) low) then "product"
  else "general"

/-- The uncapped entity list of `extract_data`:
`[word.strip('.,!?') for word in words if word[0].isupper() and len(word) > 1]`. -/
def entitiesOf (input_text : List Char) : List (List Char) :=
  ((splitWords input_text).filter
    (fun w => headIsUpper w && decide (w.length > 1))).map stripPunct

/-- The uncapped keyword list of `extract_data`:
`[word.lower().strip('.,!?') for word in words if len(word) > 4]`. -/
def keywordsOf (input_text : List Char) : List (List Char) :=
  ((splitWords input_text).filter
    (fun w => decide (w.length > 4))).map (fun w => stripPunct (w.map Char.toLower))

/-- The value stored under the `"extracted_data"` key. Every field is an
`Option` because `validate_data` and `format_data` read this dictionary with
`.get` and must also accept inputs where keys are absent; `extract_data`
itself always populates all four keys. -/
structure InnerData where
  text : Option (List Char)
  length : Option Int
  type : Option String
  key_elements : Option (List (List Char))
deriving DecidableEq

/-- The dictionary returned by `extract_data`. -/
structure ExtractResult where
  status : String
  original_text : List Char
  word_count : Nat
  character_count : Nat
  entities : List (List Char)
  numbers : List (List Char)
  keywords : List (List Char)
  content_type : String
  extraction_timestamp : String
  extracted_data : InnerData
deriving DecidableEq

/-- Embedding of `extract_data` (data_processor.py, lines 31-82). -/
def extract_data (ts : String) (input_text : List Char) : ExtractResult :=
  let words := splitWords input_text
  let word_count := words.length
  let char_count := input_text.length
  let entities := entitiesOf input_text
  let numbers := scanNumbers input_text
  let keywords := keywordsOf input_text
  let content_type := contentTypeOf input_text
  { status := "success"
    original_text := input_text
    word_count := word_count
    character_count := char_count
    entities := entities.take 5
    numbers := numbers
    keywords := keywords.take 10
    content_type := content_type
    extraction_timestamp := ts
    extracted_data :=
      { text := some input_text
        length := some (char_count : Int)
        type := some content_type
        key_elements := some (entities ++ keywords.take 3) } }

/-- The projection of a dictionary handed to `validate_data` onto the only
two keys it reads: `"extracted_data"` (tested with `in`, then indexed) and
`"word_count"` (read with `.get("word_count", 0)`). `none` models an absent
key. -/
structure ValidateInput where
  extracted_data : Option InnerData
  word_count : Option Int
deriving DecidableEq

/-- View of the full `extract_data` output dictionary as `validate_data`
input: both keys are present. -/
def ExtractResult.toValidateInput (r : ExtractResult) : ValidateInput :=
  { extracted_data := some r.extracted_data
    word_count := some (r.word_count : Int) }

/-- Rule 1 of `validate_data`: `data.get("length", 0) >= 10`. -/
def rule1Pass (data : InnerData) : Bool :=
  decide (data.length.getD 0 ≥ 10)

/-- Rule 2 of `validate_data`:
`data.get("key_elements") and len(data["key_elements"]) > 0` (an absent key
yields `None`, which is falsy; an empty list is falsy as well). -/
def rule2Pass (data : InnerData) : Bool :=
  match data.key_elements with
  | some ke => decide (ke.length > 0)
  | none => false

/-- Rule 3 of `validate_data`: `data.get("type") != "general"` (an absent key
yields `None`, which differs from `"general"` and so passes). -/
def rule3Pass (data : InnerData) : Bool :=
  decide (data.type ≠ some "general")

/-- Rule 4 of `validate_data`: `5 <= extracted_data.get("word_count", 0) <= 1000`. -/
def rule4Pass (inp : ValidateInput) : Bool :=
  decide (5 ≤ inp.word_count.getD 0 ∧ inp.word_count.getD 0 ≤ 1000)

/-- The dictionary returned by `validate_data`. The keys `validated_data` and
`original_extraction` are only set on the non-error path, hence `Option`. -/
structure ValidationResult where
  status : String
  is_valid : Bool
  validation_errors : List String
  quality_score : Int
  validation_timestamp : String
  validated_data : Option InnerData
  original_extraction : Option ValidateInput
deriving DecidableEq

/-- Embedding of `validate_data` (data_processor.py, lines 84-144). -/
def validate_data (ts : String) (inp : ValidateInput) : ValidationResult :=
  match inp.extracted_data with
  | none =>
    { status := "error"
      is_valid := false
      validation_errors := ["No extracted_data found"]
      quality_score := 0
      validation_timestamp := ts
      validated_data := none
      original_extraction := none }
  | some data =>
    let wc := inp.word_count.getD 0
    let quality_score : Int :=
      (if rule1Pass data then 25 else 0) + (if rule2Pass data then 25 else 0)
        + (if rule3Pass data then 25 else 0) + (if rule4Pass inp then 25 else 0)
    { status := "success"
      is_valid := decide (quality_score ≥ 50)
      validation_errors :=
        (if rule1Pass data then [] else ["Text too short (minimum 10 characters)"])
          ++ (if rule2Pass data then [] else ["No key elements identified"])
          ++ (if rule3Pass data then [] else ["Generic content type"])
          ++ (if rule4Pass inp then [] else ["Word count out of range: " ++ toString wc])
      quality_score := quality_score
      validation_timestamp := ts
      validated_data := some data
      original_extraction := some inp }

/-- View of the `validate_data` output dictionary as `validate_data` input:
it contains neither an `"extracted_data"` nor a `"word_count"` key, so both
projections are absent. -/
def ValidationResult.toValidateInput (_ : ValidationResult) : ValidateInput :=
  { extracted_data := none, word_count := none }

/-- The `"content"` sub-dictionary of `format_data`'s `final_result`. -/
structure FinalContent where
  original_text : List Char
  content_type : String
  key_elements : List (List Char)
  length : Int
deriving DecidableEq

/-- The `"quality"` sub-dictionary of `format_data`'s `final_result`. -/
structure FinalQuality where
  score : Int
  is_valid : Bool
  grade : String
deriving DecidableEq

/-- The `"metadata"` sub-dictionary of `format_data`'s `final_result`. -/
structure FinalMetadata where
  processed_at : String
  pipeline_version : String
  processing_steps : List String
deriving DecidableEq

/-- The `"final_result"` dictionary built by `format_data`. -/
structure FinalResult where
  content : FinalContent
  quality : FinalQuality
  metadata : FinalMetadata
deriving DecidableEq

/-- The dictionary returned by `format_data`. The error path sets the keys
`error` and `original_error` only; the success path sets `processing_complete`,
`final_result`, `summary` and `validation_errors` only. -/
structure FormatResult where
  status : String
  error : Option String
  original_error : Option ValidationResult
  processing_complete : Option Bool
  final_result : Option FinalResult
  summary : Option String
  validation_errors : Option (List String)
deriving DecidableEq

/-- Embedding of `format_data` (data_processor.py, lines 146-200). -/
def format_data (ts : String) (vr : ValidationResult) : FormatResult :=
  if vr.status ≠ "success" then
    { status := "error"
      error := some "Cannot format invalid data"
      original_error := some vr
      processing_complete := none
      final_result := none
      summary := none
      validation_errors := none }
  else
    let validated_data := vr.validated_data.getD ⟨none, none, none, none⟩
    let quality_score := vr.quality_score
    let is_valid := vr.is_valid
    let typeName := validated_data.type.getD "general"
    { status := "success"
      error := none
      original_error := none
      processing_complete := some true
      final_result := some
        { content :=
            { original_text := validated_data.text.getD []
              content_type := validated_data.type.getD "unknown"
              key_elements := validated_data.key_elements.getD []
              length := validated_data.length.getD 0 }
          quality :=
            { score := quality_score
              is_valid := is_valid
              grade :=
                if quality_score ≥ 75 then "A"
                else if quality_score ≥ 50 then "B" else "C" }
          metadata :=
            { processed_at := ts
              pipeline_version := "1.0"
              processing_steps := ["extraction", "validation", "formatting"] } }
      summary := some
        (if is_valid then
          "Successfully processed " ++ typeName ++ " content with "
            ++ toString quality_score ++ "% quality score."
        else
          "Processed content with quality issues (score: "
            ++ toString quality_score ++ "%).")
      validation_errors := some vr.validation_errors }

/-- The random draws consumed by `fetch_weather_data`. Floating-point values
that the source only ever formats into strings (the `random.uniform` delay)
are abstracted as their rendered text. -/
structure WeatherRand where
  delayStr : String
  condition : String
  temperature : Int
  humidity : Int
  wind_speed : Int
  visibility : Int
deriving DecidableEq

/-- The `"data"` sub-dictionary of a weather result. -/
structure WeatherData where
  temperature : String
  condition : String
  humidity : String
  wind_speed : String
  visibility : String
deriving DecidableEq

/-- The `"metadata"` sub-dictionary of a weather result. -/
structure WeatherMetadata where
  fetch_time : String
  api_delay : String
  data_freshness : String
deriving DecidableEq

/-- The dictionary returned by `fetch_weather_data`. -/
structure WeatherResult where
  status : String
  source : String
  city : String
  data : WeatherData
  metadata : WeatherMetadata
deriving DecidableEq

/-- Embedding of `fetch_weather_data` (data_aggregator.py, lines 33-73). -/
def fetch_weather_data (ts : String) (r : WeatherRand) (city : String) : WeatherResult :=
  let t := r.temperature
  let h := r.humidity
  let w := r.wind_speed
  let v := r.visibility
  { status := "success"
    source := "weather_api"
    city := city
    data :=
      { temperature := toString t ++ "°C"
        condition := r.condition
        humidity := toString h ++ "%"
        wind_speed := toString w ++ " km/h"
        visibility := toString v ++ " km" }
    metadata :=
      { fetch_time := ts
        api_delay := r.delayStr ++ "s"
        data_freshness := "real-time" } }

/-- The five headline templates of `fetch_news_data`. -/
def newsHeadlines (topic : String) : List String :=
  ["Breaking: Major developments in " ++ topic ++ " sector",
   "Analysis: The future of " ++ topic ++ " looks promising",
   "Expert opinion: " ++ topic ++ " trends to watch",
   "Market update: " ++ topic ++ " stocks show strong performance",
   "Innovation: New " ++ topic ++ " breakthrough announced"]

/-- The random draws consumed by `fetch_news_data`. The draw
`random.sample(headlines, 3)` is modelled by the three sampled indices. -/
structure NewsRand where
  delayStr : String
  sampleIdxs : List Nat
  article_count : Int
  trending_score : Int
  sentiment : String
  sources_count : Int
deriving DecidableEq

/-- The `"data"` sub-dictionary of a news result. -/
structure NewsData where
  headlines : List String
  total_articles : Int
  trending_score : Int
  sentiment : String
deriving DecidableEq

/-- The `"metadata"` sub-dictionary of a news result. -/
structure NewsMetadata where
  fetch_time : String
  api_delay : String
  sources_count : Int
deriving DecidableEq

/-- The dictionary returned by `fetch_news_data`. -/
structure NewsResult where
  status : String
  source : String
  topic : String
  data : NewsData
  metadata : NewsMetadata
deriving DecidableEq

/-- Embedding of `fetch_news_data` (data_aggregator.py, lines 75-115). -/
def fetch_news_data (ts : String) (r : NewsRand) (topic : String) : NewsResult :=
  { status := "success"
    source := "news_api"
    topic := topic
    data :=
      { headlines := r.sampleIdxs.map (fun i => (newsHeadlines topic).getD i "")
        total_articles := r.article_count
        trending_score := r.trending_score
        sentiment := r.sentiment }
    metadata :=
      { fetch_time := ts
        api_delay := r.delayStr ++ "s"
        sources_count := r.sources_count } }

/-- The random draws consumed by `fetch_stock_data`. The floating-point
price, change, percent-change, comma-grouped volume and P/E values that the
source only ever formats are abstracted as their rendered text. -/
structure StockRand where
  delayStr : String
  priceStr : String
  changeStr : String
  changePercentStr : String
  volumeStr : String
  market_cap : Int
  peStr : String
  market_open : Bool
deriving DecidableEq

/-- The `"data"` sub-dictionary of a stock result; `price_earnings` embeds
the source's P/E-ratio key. -/
structure StockData where
  current_price : String
  change : String
  change_percent : String
  volume : String
  market_cap : String
  price_earnings : String
deriving DecidableEq

/-- The `"metadata"` sub-dictionary of a stock result. -/
structure StockMetadata where
  fetch_time : String
  api_delay : String
  market_status : String
deriving DecidableEq

/-- The dictionary returned by `fetch_stock_data`. -/
structure StockResult where
  status : String
  source : String
  symbol : String
  data : StockData
  metadata : StockMetadata
deriving DecidableEq

/-- Embedding of `fetch_stock_data` (data_aggregator.py, lines 117-160). -/
def fetch_stock_data (ts : String) (r : StockRand) (symbol : String) : StockResult :=
  let cap := r.market_cap
  { status := "success"
    source := "financial_api"
    symbol := symbol.map Char.toUpper
    data :=
      { current_price := "$" ++ r.priceStr
        change := r.changeStr
        change_percent := r.changePercentStr ++ "%"
        volume := r.volumeStr
        market_cap := "$" ++ toString cap ++ "B"
        price_earnings := r.peStr }
    metadata :=
      { fetch_time := ts
        api_delay := r.delayStr ++ "s"
        market_status := if r.market_open then "open" else "closed" } }

/-- The configuration surface the samples read: presence of the Google API
key and the default model identifier (from the repository's `config` module,
which is not under src/). -/
structure Config where
  google_api_key : Option String
  default_model : String
deriving DecidableEq

/-- Modelled from the spec: `validate_config` lives in
utils/session_helpers.py, which is not under src/. Per the spec,
configuration is "validated once at startup; absence of a required
credential is a fail-fast configuration error". -/
def validate_config (cfg : Config) : Bool :=
  cfg.google_api_key.isSome

/-- The constructor arguments of a framework `LlmAgent`; the bound tool
functions are recorded by name. -/
structure LlmAgentSpec where
  name : String
  model : String
  tools : List String
  output_key : String
  instruction : String
  description : String
deriving DecidableEq

/-- The constructor arguments of a framework `SequentialAgent`. -/
structure SequentialAgentSpec where
  name : String
  sub_agents : List LlmAgentSpec
  description : String
deriving DecidableEq

/-- The constructor arguments of a framework `ParallelAgent`. -/
structure ParallelAgentSpec where
  name : String
  sub_agents : List LlmAgentSpec
  description : String
deriving DecidableEq

/-- The sequential pipeline built by `create_data_pipeline` once
configuration validation has passed (data_processor.py, lines 213-252). -/
def data_pipeline_spec (cfg : Config) : SequentialAgentSpec :=
  { name := "data_processing_pipeline"
    sub_agents :=
      [{ name := "data_extractor"
         model := cfg.default_model
         tools := ["extract_data"]
         output_key := "extraction_result"
         instruction := "You are a data extraction agent.\nWhen given user input, call extract_data(input_text) with the provided text.\nReturn only the extraction result."
         description := "Extracts structured data from raw text input" },
       { name := "data_validator"
         model := cfg.default_model
         tools := ["validate_data"]
         output_key := "validation_result"
         instruction := "You are a data validation agent.\nTake the extraction result from the previous step and call validate_data(extracted_data).\nReturn only the validation result."
         description := "Validates extracted data against quality rules" },
       { name := "data_formatter"
         model := cfg.default_model
         tools := ["format_data"]
         output_key := "final_result"
         instruction := "You are a data formatting agent.\nTake the validation result from the previous step and call format_data(validation_result).\nReturn only the formatted final result."
         description := "Formats validated data for final output" }]
    description := "Processes data through extraction, validation, and formatting steps" }

/-- Embedding of `create_data_pipeline` (data_processor.py, lines 202-254):
configuration is validated before any agent is constructed; the raised
`ValueError` becomes an `Except.error`. -/
def create_data_pipeline (cfg : Config) : Except String SequentialAgentSpec :=
  if validate_config cfg = false then
    Except.error "Invalid configuration. Please check your API key."
  else
    Except.ok (data_pipeline_spec cfg)

/-- The parallel aggregator built by `create_data_aggregator` once
configuration validation has passed (data_aggregator.py, lines 173-214). -/
def data_aggregator_spec (cfg : Config) : ParallelAgentSpec :=
  { name := "data_aggregator"
    sub_agents :=
      [{ name := "weather_agent"
         model := cfg.default_model
         tools := ["fetch_weather_data"]
         output_key := "weather_info"
         instruction := "You are a weather data agent. When given a city name,\ncall fetch_weather_data(city) and return the weather information.\nExtract the city name from the user's request and use it for the API call."
         description := "Fetches weather information for specified cities" },
       { name := "news_agent"
         model := cfg.default_model
         tools := ["fetch_news_data"]
         output_key := "news_info"
         instruction := "You are a news data agent. When given a topic,\ncall fetch_news_data(topic) and return the news information.\nExtract the topic from the user's request and use it for the API call."
         description := "Fetches news information for specified topics" },
       { name := "stock_agent"
         model := cfg.default_model
         tools := ["fetch_stock_data"]
         output_key := "stock_info"
         instruction := "You are a stock data agent. When given a stock symbol,\ncall fetch_stock_data(symbol) and return the stock information.\nExtract the stock symbol from the user's request and use it for the API call."
         description := "Fetches stock market information for specified symbols" }]
    description := "Gathers weather, news, and stock data concurrently from multiple sources" }

/-- Embedding of `create_data_aggregator` (data_aggregator.py, lines 162-214):
configuration is validated before any agent is constructed. -/
def create_data_aggregator (cfg : Config) : Except String ParallelAgentSpec :=
  if validate_config cfg = false then
    Except.error "Invalid configuration. Please check your API key."
  else
    Except.ok (data_aggregator_spec cfg)

/-- Modelled from the spec: the `ADKSessionManager` wrapper lives in
utils/session_helpers.py, which is not under src/; the spec describes it as
holding per-session state for a bound composite. Only its identity is
needed here. -/
structure ADKSessionManager where
  app_name : String
deriving DecidableEq

/-- Embedding of the construction order of `demo_data_pipeline`
(data_processor.py, lines 256-278): the pipeline is created inside a
try/except whose handler returns, and only afterwards is the
`ADKSessionManager` created. The result is the session manager created, if
any. -/
def demo_data_pipeline (cfg : Config) : Option ADKSessionManager :=
  match create_data_pipeline cfg with
  | Except.error _ => none
  | Except.ok _ => some { app_name := "data_pipeline_demo" }

/-- Embedding of the construction order of `demo_parallel_processing`
(data_aggregator.py, lines 216-238): aggregator creation precedes session
manager creation, and a creation failure returns first. -/
def demo_parallel_processing (cfg : Config) : Option ADKSessionManager :=
  match create_data_aggregator cfg with
  | Except.error _ => none
  | Except.ok _ => some { app_name := "parallel_aggregator_demo" }

/-- Copy of an extract result with its timestamp field cleared, for
comparisons "aside from timestamp fields". -/
def ExtractResult.eraseTs (r : ExtractResult) : ExtractResult :=
  { r with extraction_timestamp := "" }

/-- Copy of a validation result with its timestamp field cleared. -/
def ValidationResult.eraseTs (r : ValidationResult) : ValidationResult :=
  { r with validation_timestamp := "" }

/-- Copy of a format result with its nested `processed_at` timestamp
cleared. -/
def FormatResult.eraseTs (r : FormatResult) : FormatResult :=
  { r with final_result :=
      r.final_result.map (fun fr => { fr with metadata := { fr.metadata with processed_at := "" } }) }

/-- Outcome of one parallel branch: the branch's ToolResult, rendered
opaquely as a string payload, or an in-band failure. Modelled from the spec:
the `ParallelAgent` execution machinery is framework code outside this
repository. -/
inductive BranchOutcome where
  | ok (payload : String)
  | err (msg : String)
deriving DecidableEq

/-- First-match association lookup used by the merge step. -/
def lookupOutcome (k : String) : List (String × BranchOutcome) → BranchOutcome
  | [] => BranchOutcome.err "missing branch result"
  | p :: rest => if p.1 = k then p.2 else lookupOutcome k rest

/-- Modelled from the spec: the merge step of a ParallelComposite runs after
every branch has finished (possibly with an error outcome) and copies each
branch's outcome into the result mapping "by a fixed iteration order over
the configured Agent list", keyed by each agent's output key. `completed`
lists the branch outcomes in completion order. -/
def mergeParallel (agents : List LlmAgentSpec)
    (completed : List (String × BranchOutcome)) : List (String × BranchOutcome) :=
  agents.map (fun a => (a.output_key, lookupOutcome a.output_key completed))

/-! ### Shared lemmas -/

/-- Every token produced by the whitespace tokenizer is nonempty. -/
theorem splitWordsAux_mem_length (cs : List Char) :
    ∀ (acc w : List Char), w ∈ splitWordsAux cs acc → 1 ≤ w.length := by
  induction cs with
  | nil =>
    intro acc w hw
    cases acc with
    | nil => simp [splitWordsAux] at hw
    | cons a as =>
      simp [splitWordsAux] at hw
      subst hw
      simp
  | cons c cs ih =>
    intro acc w hw
    by_cases hws : c.isWhitespace
    · cases acc with
      | nil =>
        simp [splitWordsAux, hws] at hw
        exact ih [] w hw
      | cons a as =>
        simp [splitWordsAux, hws] at hw
        rcases hw with hw | hw
        · subst hw; simp
        · exact ih [] w hw
    · simp [splitWordsAux, hws] at hw
      exact ih (c :: acc) w hw

/-- Tokenizing `cs` starting from partial word `acc` yields tokens whose
total length, plus one separator per token, is bounded by the unread input
plus the partial word (plus one, since the last token needs no separator). -/
theorem splitWordsAux_sum_bound (cs : List Char) :
    ∀ acc : List Char,
      ((splitWordsAux cs acc).map List.length).sum + (splitWordsAux cs acc).length
        ≤ cs.length + acc.length + 1 := by
  induction cs with
  | nil =>
    intro acc
    cases acc with
    | nil => simp [splitWordsAux]
    | cons a as => simp [splitWordsAux]
  | cons c cs ih =>
    intro acc
    by_cases hws : c.isWhitespace
    · cases acc with
      | nil =>
        simp only [splitWordsAux, hws, if_true, List.isEmpty_nil]
        have := ih []
        simp at this ⊢
        omega
      | cons a as =>
        simp only [splitWordsAux, hws, if_true, List.isEmpty_cons]
        have := ih []
        simp at this ⊢
        omega
    · simp only [splitWordsAux, hws, if_false]
      have := ih (c :: acc)
      simp at this ⊢
      omega

/-- A list of nonempty words has at least as many characters as words. -/
theorem words_length_le_sum (l : List (List Char))
    (h : ∀ u ∈ l, 1 ≤ u.length) : l.length ≤ (l.map List.length).sum := by
  induction l with
  | nil => simp
  | cons a t ih =>
    have ha := h a (List.mem_cons_self a t)
    have ht := ih (fun u hu => h u (List.mem_cons_of_mem a hu))
    simp only [List.map_cons, List.sum_cons, List.length_cons]
    omega

/-- One member's length plus one per remaining word bounds the total length
of a list of nonempty words. -/
theorem member_length_bound (l : List (List Char)) (w : List Char)
    (hw : w ∈ l) (h : ∀ u ∈ l, 1 ≤ u.length) :
    w.length + l.length ≤ (l.map List.length).sum + 1 := by
  induction l with
  | nil => simp at hw
  | cons a t ih =>
    have ht : ∀ u ∈ t, 1 ≤ u.length := fun u hu => h u (List.mem_cons_of_mem a hu)
    rcases List.mem_cons.mp hw with hw | hw
    · subst hw
      have := words_length_le_sum t ht
      simp only [List.map_cons, List.sum_cons, List.length_cons]
      omega
    · have := ih hw ht
      have ha := h a (List.mem_cons_self a t)
      simp only [List.map_cons, List.sum_cons, List.length_cons]
      omega

/-- If the input has at least five words one of which has five or more
characters, the input has at least thirteen characters. -/
theorem charCount_lower_bound (text w : List Char)
    (hw : w ∈ splitWords text) (hlen : 5 ≤ w.length)
    (hn : 5 ≤ (splitWords text).length) : 13 ≤ text.length := by
  have hne : ∀ u ∈ splitWords text, 1 ≤ u.length :=
    fun u hu => splitWordsAux_mem_length text [] u hu
  have h1 := splitWordsAux_sum_bound text []
  have h2 := member_length_bound (splitWords text) w hw hne
  simp only [splitWords] at h2 hn
  simp at h1
  omega

/-- First-match lookup in an association list with duplicate-free keys
returns the value of any member with the sought key. -/
theorem lookupOutcome_of_mem (l : List (String × BranchOutcome)) (k : String)
    (v : BranchOutcome) (hmem : (k, v) ∈ l) (hnd : (l.map Prod.fst).Nodup) :
    lookupOutcome k l = v := by
  induction l with
  | nil => simp at hmem
  | cons p t ih =>
    simp only [List.map_cons, List.nodup_cons] at hnd
    rcases List.mem_cons.mp hmem with hm | hm
    · subst hm
      simp [lookupOutcome]
    · have hk : p.1 ≠ k := by
        intro hkk
        exact hnd.1 (hkk ▸ (List.mem_map.mpr ⟨(k, v), hm, rfl⟩))
      simp [lookupOutcome, hk]
      exact ih hm hnd.2

/-- Unfolding of `validate_data` on inputs whose `extracted_data` key is
present, as one equation over the four rule tests. -/
theorem validate_data_eq_of_some (ts : String) (inp : ValidateInput) (d : InnerData)
    (hd : inp.extracted_data = some d) :
    validate_data ts inp =
      { status := "success"
        is_valid := decide (((if rule1Pass d then (25 : Int) else 0)
          + (if rule2Pass d then 25 else 0) + (if rule3Pass d then 25 else 0)
          + (if rule4Pass inp then 25 else 0)) ≥ 50)
        validation_errors :=
          (if rule1Pass d then [] else ["Text too short (minimum 10 characters)"])
            ++ (if rule2Pass d then [] else ["No key elements identified"])
            ++ (if rule3Pass d then [] else ["Generic content type"])
            ++ (if rule4Pass inp then [] else
                  ["Word count out of range: " ++ toString (inp.word_count.getD 0)])
        quality_score := (if rule1Pass d then 25 else 0) + (if rule2Pass d then 25 else 0)
          + (if rule3Pass d then 25 else 0) + (if rule4Pass inp then 25 else 0)
        validation_timestamp := ts
        validated_data := some d
        original_extraction := some inp } := by
  unfold validate_data
  rw [hd]

/-! ### Claim theorems -/

/-- C10: the `entities` field is capped at 5 and the `keywords` field at 10,
but `extracted_data.key_elements` is the uncapped entity list plus at most
three keywords, so on `"Aa Bb Cc Dd Ee Ff"` it holds six entities while the
`entities` field holds five. -/
theorem extract_caps_and_uncapped_key_elements (ts : String) (text : List Char) :
    (extract_data ts text).entities.length ≤ 5
      ∧ (extract_data ts text).keywords.length ≤ 10
      ∧ (extract_data ts text).extracted_data.key_elements
          = some (entitiesOf text ++ (keywordsOf text).take 3)
      ∧ (extract_data "t" "Aa Bb Cc Dd Ee Ff".toList).entities.length = 5
      ∧ ((extract_data "t" "Aa Bb Cc Dd Ee Ff".toList).extracted_data.key_elements.getD []).length = 6 := by
  refine ⟨?_, ?_, rfl, by decide, by decide⟩
  · have h : (extract_data ts text).entities = (entitiesOf text).take 5 := rfl
    rw [h, List.length_take]
    omega
  · have h : (extract_data ts text).keywords = (keywordsOf text).take 10 := rfl
    rw [h, List.length_take]
    omega

/-- C8: on any input that carries the `extracted_data` key, the quality
score is a multiple of 25 between 0 and 100, and validity holds exactly when
the score reaches 50. -/
theorem validate_quality_score_shape (ts : String) (inp : ValidateInput)
    (h : inp.extracted_data.isSome = true) :
    (validate_data ts inp).quality_score % 25 = 0
      ∧ 0 ≤ (validate_data ts inp).quality_score
      ∧ (validate_data ts inp).quality_score ≤ 100
      ∧ ((validate_data ts inp).is_valid = true ↔ 50 ≤ (validate_data ts inp).quality_score) := by
  obtain ⟨d, hd⟩ := Option.isSome_iff_exists.mp h
  rw [validate_data_eq_of_some ts inp d hd]
  cases h1 : rule1Pass d <;> cases h2 : rule2Pass d <;> cases h3 : rule3Pass d
    <;> cases h4 : rule4Pass inp <;> simp

/-- C8 witness: a concrete input carrying the `extracted_data` key. -/
theorem validate_quality_score_shape_witness :
    (validate_data "t" ⟨some ⟨none, none, none, none⟩, none⟩).quality_score % 25 = 0
      ∧ 0 ≤ (validate_data "t" ⟨some ⟨none, none, none, none⟩, none⟩).quality_score
      ∧ (validate_data "t" ⟨some ⟨none, none, none, none⟩, none⟩).quality_score ≤ 100
      ∧ ((validate_data "t" ⟨some ⟨none, none, none, none⟩, none⟩).is_valid = true
          ↔ 50 ≤ (validate_data "t" ⟨some ⟨none, none, none, none⟩, none⟩).quality_score) :=
  validate_quality_score_shape "t" ⟨some ⟨none, none, none, none⟩, none⟩ rfl

/-- C1 counterexample: the nine-character input `"sales a b"` is shorter
than 10 characters and is flagged "too short", yet `extract_data` followed
by `validate_data` yields `is_valid = true` (score 50: key elements and a
recognized content type), refuting the claim that `is_valid` is false for
every input shorter than 10 characters. -/
theorem short_text_can_be_valid :
    "sales a b".toList.length < 10
      ∧ (validate_data "t1" (extract_data "t0" "sales a b".toList).toValidateInput).is_valid = true
      ∧ "Text too short (minimum 10 characters)"
          ∈ (validate_data "t1" (extract_data "t0" "sales a b".toList).toValidateInput).validation_errors
      ∧ (validate_data "t1" (extract_data "t0" "sales a b".toList).toValidateInput).quality_score = 50 := by
  decide

/-- C1 amended: for every input shorter than 10 characters, the validation
result contains the "too short" error and rule 1 contributes 0 to the
quality score (the score is exactly the sum of the other three rules'
contributions); whether `is_valid` is false then depends on the remaining
rules. -/
theorem short_text_flags_too_short (ts1 ts2 : String) (text : List Char)
    (h : text.length < 10) :
    "Text too short (minimum 10 characters)"
        ∈ (validate_data ts2 (extract_data ts1 text).toValidateInput).validation_errors
      ∧ rule1Pass (extract_data ts1 text).extracted_data = false
      ∧ (validate_data ts2 (extract_data ts1 text).toValidateInput).quality_score
          = (if rule2Pass (extract_data ts1 text).extracted_data then 25 else 0)
            + (if rule3Pass (extract_data ts1 text).extracted_data then 25 else 0)
            + (if rule4Pass (extract_data ts1 text).toValidateInput then 25 else 0) := by
  have hr1 : rule1Pass (extract_data ts1 text).extracted_data = false := by
    simp only [rule1Pass, extract_data, Option.getD_some, ge_iff_le,
      decide_eq_false_iff_not, not_le]
    exact_mod_cast h
  rw [validate_data_eq_of_some ts2 (extract_data ts1 text).toValidateInput
    (extract_data ts1 text).extracted_data rfl]
  rw [hr1]
  simp

/-- C1 amended witness: the two-character input `"hi"`. -/
theorem short_text_flags_too_short_witness :
    "Text too short (minimum 10 characters)"
        ∈ (validate_data "t1" (extract_data "t0" "hi".toList).toValidateInput).validation_errors
      ∧ rule1Pass (extract_data "t0" "hi".toList).extracted_data = false
      ∧ (validate_data "t1" (extract_data "t0" "hi".toList).toValidateInput).quality_score
          = (if rule2Pass (extract_data "t0" "hi".toList).extracted_data then 25 else 0)
            + (if rule3Pass (extract_data "t0" "hi".toList).extracted_data then 25 else 0)
            + (if rule4Pass (extract_data "t0" "hi".toList).toValidateInput then 25 else 0) :=
  short_text_flags_too_short "t0" "t1" "hi".toList (by decide)

/-- C9: `format_data` returns a status-error record exactly when its input's
status is not "success"; the error record embeds the input unchanged under
`original_error` and carries no `final_result`; on success the result has
status "success", `processing_complete = true`, and grade "A" exactly when
the quality score is at least 75, "B" exactly when it is in [50, 75), and
"C" exactly otherwise. -/
theorem format_error_iff_and_grades (ts : String) (vr : ValidationResult) :
    ((format_data ts vr).status = "error" ↔ vr.status ≠ "success")
      ∧ ((format_data ts vr).status = "error" →
          (format_data ts vr).original_error = some vr
            ∧ (format_data ts vr).final_result = none)
      ∧ (vr.status = "success" →
          (format_data ts vr).status = "success"
            ∧ (format_data ts vr).processing_complete = some true
            ∧ ((format_data ts vr).final_result.map (fun fr => fr.quality.grade) = some "A"
                ↔ 75 ≤ vr.quality_score)
            ∧ ((format_data ts vr).final_result.map (fun fr => fr.quality.grade) = some "B"
                ↔ (50 ≤ vr.quality_score ∧ vr.quality_score < 75))
            ∧ ((format_data ts vr).final_result.map (fun fr => fr.quality.grade) = some "C"
                ↔ vr.quality_score < 50)) := by
  by_cases h : vr.status = "success"
  · refine ⟨?_, ?_, ?_⟩
    · simp [format_data, h]
    · intro he
      simp [format_data, h] at he
    · intro _
      refine ⟨by simp [format_data, h], by simp [format_data, h], ?_, ?_, ?_⟩
        <;> simp [format_data, h]
        <;> split_ifs <;> simp_all <;> try omega
  · refine ⟨?_, ?_, ?_⟩
    · simp [format_data, h]
    · intro _
      exact ⟨by simp [format_data, h], by simp [format_data, h]⟩
    · intro hc
      exact absurd hc h

/-- C9 witness: a concrete success-status input with quality score 80. -/
theorem format_error_iff_and_grades_witness :
    ((format_data "t" ⟨"success", true, [], 80, "t0", none, none⟩).status = "error"
        ↔ ValidationResult.status ⟨"success", true, [], 80, "t0", none, none⟩ ≠ "success")
      ∧ ((format_data "t" ⟨"success", true, [], 80, "t0", none, none⟩).final_result.map
            (fun fr => fr.quality.grade) = some "A"
          ↔ 75 ≤ ValidationResult.quality_score ⟨"success", true, [], 80, "t0", none, none⟩) :=
  ⟨(format_error_iff_and_grades "t" ⟨"success", true, [], 80, "t0", none, none⟩).1,
   ((format_error_iff_and_grades "t" ⟨"success", true, [], 80, "t0", none, none⟩).2.2 rfl).2.2.1⟩

/-- C4 counterexample: on the valid input `"Sales revenue rose fast today"`
the validation stage succeeds with `is_valid = true`, but re-running
`validate_data` on its own prior output yields a status-error record (the
output dictionary has no `extracted_data` key), which differs from the prior
output beyond timestamp fields — refuting per-stage idempotence. -/
theorem validate_not_idempotent_on_own_output :
    (validate_data "t1" (extract_data "t0" "Sales revenue rose fast today".toList).toValidateInput).status = "success"
      ∧ (validate_data "t1" (extract_data "t0" "Sales revenue rose fast today".toList).toValidateInput).is_valid = true
      ∧ (validate_data "t2" (validate_data "t1" (extract_data "t0" "Sales revenue rose fast today".toList).toValidateInput).toValidateInput).status = "error"
      ∧ (validate_data "t2" (validate_data "t1" (extract_data "t0" "Sales revenue rose fast today".toList).toValidateInput).toValidateInput).eraseTs
          ≠ (validate_data "t1" (extract_data "t0" "Sales revenue rose fast today".toList).toValidateInput).eraseTs := by
  decide

/-- C4 amended: each stage is deterministic rather than idempotent:
re-running a stage on the same input yields contents identical to the prior
output aside from timestamp fields; re-running `validate_data` on its own
prior output instead yields a status-error record, because that output
carries no `extracted_data` key. -/
theorem stage_determinism_modulo_timestamps (ts1 ts2 : String) (text : List Char)
    (inp : ValidateInput) (vr : ValidationResult) :
    (extract_data ts1 text).eraseTs = (extract_data ts2 text).eraseTs
      ∧ (validate_data ts1 inp).eraseTs = (validate_data ts2 inp).eraseTs
      ∧ (format_data ts1 vr).eraseTs = (format_data ts2 vr).eraseTs
      ∧ (validate_data ts2 (validate_data ts1 inp).toValidateInput).status = "error" := by
  refine ⟨rfl, ?_, ?_, rfl⟩
  · cases hd : inp.extracted_data
      <;> simp [validate_data, hd, ValidationResult.eraseTs]
  · by_cases h : vr.status = "success"
      <;> simp [format_data, h, FormatResult.eraseTs]

/-- C5: for inputs of the expected shapes the tool functions report every
failure in-band: `validate_data` and `format_data` always return a record
with status "success" or "error" (a missing `extracted_data` key and a
non-success input status produce the documented error records), and every
`fetch_*` function returns a status-"success" record. -/
theorem tool_functions_report_errors_in_band :
    (∀ ts inp, (validate_data ts inp).status = "success"
        ∨ (validate_data ts inp).status = "error")
      ∧ (∀ ts inp, inp.extracted_data = none →
          validate_data ts inp =
            { status := "error", is_valid := false
              validation_errors := ["No extracted_data found"], quality_score := 0
              validation_timestamp := ts, validated_data := none
              original_extraction := none })
      ∧ (∀ ts vr, vr.status ≠ "success" →
          (format_data ts vr).status = "error"
            ∧ (format_data ts vr).error = some "Cannot format invalid data"
            ∧ (format_data ts vr).original_error = some vr)
      ∧ (∀ ts vr, (format_data ts vr).status = "success"
          ∨ (format_data ts vr).status = "error")
      ∧ (∀ ts r city, (fetch_weather_data ts r city).status = "success")
      ∧ (∀ ts r topic, (fetch_news_data ts r topic).status = "success")
      ∧ (∀ ts r symbol, (fetch_stock_data ts r symbol).status = "success") := by
  refine ⟨?_, ?_, ?_, ?_, fun ts r city => rfl, fun ts r topic => rfl,
    fun ts r symbol => rfl⟩
  · intro ts inp
    cases hd : inp.extracted_data with
    | none => right; simp [validate_data, hd]
    | some d => left; rw [validate_data_eq_of_some ts inp d hd]
  · intro ts inp hd
    simp [validate_data, hd]
  · intro ts vr h
    exact ⟨by simp [format_data, h], by simp [format_data, h], by simp [format_data, h]⟩
  · intro ts vr
    by_cases h : vr.status = "success"
    · left; simp [format_data, h]
    · right; simp [format_data, h]

/-- C5 witness: the documented error records at concrete inputs. -/
theorem tool_functions_report_errors_in_band_witness :
    validate_data "t" ⟨none, none⟩ =
        { status := "error", is_valid := false
          validation_errors := ["No extracted_data found"], quality_score := 0
          validation_timestamp := "t", validated_data := none
          original_extraction := none }
      ∧ (format_data "t" ⟨"boom", false, [], 0, "t0", none, none⟩).status = "error" :=
  ⟨tool_functions_report_errors_in_band.2.1 "t" ⟨none, none⟩ rfl,
   (tool_functions_report_errors_in_band.2.2.1 "t"
      ⟨"boom", false, [], 0, "t0", none, none⟩ (by decide)).1⟩

/-- C6: whenever configuration validation fails, both factory functions
return the configuration error before any agent or composite is built, and
the demo drivers exit before any session manager is created. -/
theorem config_failure_is_fail_fast (cfg : Config) (h : validate_config cfg = false) :
    create_data_pipeline cfg = Except.error "Invalid configuration. Please check your API key."
      ∧ create_data_aggregator cfg = Except.error "Invalid configuration. Please check your API key."
      ∧ demo_data_pipeline cfg = none
      ∧ demo_parallel_processing cfg = none := by
  refine ⟨?_, ?_, ?_, ?_⟩
    <;> simp [create_data_pipeline, create_data_aggregator, demo_data_pipeline,
      demo_parallel_processing, h]

/-- C6 witness: a configuration without the required credential. -/
theorem config_failure_is_fail_fast_witness :
    create_data_pipeline ⟨none, "gemini-2.0-flash"⟩
        = Except.error "Invalid configuration. Please check your API key."
      ∧ create_data_aggregator ⟨none, "gemini-2.0-flash"⟩
        = Except.error "Invalid configuration. Please check your API key."
      ∧ demo_data_pipeline ⟨none, "gemini-2.0-flash"⟩ = none
      ∧ demo_parallel_processing ⟨none, "gemini-2.0-flash"⟩ = none :=
  config_failure_is_fail_fast ⟨none, "gemini-2.0-flash"⟩ rfl

/-- C7: the sequential pipeline's sub-agents carry the pairwise distinct
output keys extraction_result, validation_result, final_result, and the
parallel aggregator's sub-agents carry the pairwise distinct output keys
weather_info, news_info, stock_info; neither sub-agent list is empty. -/
theorem composite_output_keys_unique (cfg : Config) (p : SequentialAgentSpec)
    (a : ParallelAgentSpec) (hp : create_data_pipeline cfg = Except.ok p)
    (ha : create_data_aggregator cfg = Except.ok a) :
    p.sub_agents.map LlmAgentSpec.output_key
        = ["extraction_result", "validation_result", "final_result"]
      ∧ (p.sub_agents.map LlmAgentSpec.output_key).Nodup
      ∧ p.sub_agents ≠ []
      ∧ a.sub_agents.map LlmAgentSpec.output_key = ["weather_info", "news_info", "stock_info"]
      ∧ (a.sub_agents.map LlmAgentSpec.output_key).Nodup
      ∧ a.sub_agents ≠ [] := by
  cases hv : validate_config cfg
  · simp [create_data_pipeline, hv] at hp
  · simp [create_data_pipeline, hv] at hp
    simp [create_data_aggregator, hv] at ha
    subst hp
    subst ha
    refine ⟨rfl, ?_, by simp [data_pipeline_spec], rfl, ?_,
      by simp [data_aggregator_spec]⟩
    · show (["extraction_result", "validation_result", "final_result"] : List String).Nodup
      decide
    · show (["weather_info", "news_info", "stock_info"] : List String).Nodup
      decide

/-- C7 witness: a configuration with the credential present. -/
theorem composite_output_keys_unique_witness :
    (data_pipeline_spec ⟨some "key", "gemini-2.0-flash"⟩).sub_agents.map LlmAgentSpec.output_key
        = ["extraction_result", "validation_result", "final_result"]
      ∧ ((data_pipeline_spec ⟨some "key", "gemini-2.0-flash"⟩).sub_agents.map LlmAgentSpec.output_key).Nodup
      ∧ (data_pipeline_spec ⟨some "key", "gemini-2.0-flash"⟩).sub_agents ≠ []
      ∧ (data_aggregator_spec ⟨some "key", "gemini-2.0-flash"⟩).sub_agents.map LlmAgentSpec.output_key
        = ["weather_info", "news_info", "stock_info"]
      ∧ ((data_aggregator_spec ⟨some "key", "gemini-2.0-flash"⟩).sub_agents.map LlmAgentSpec.output_key).Nodup
      ∧ (data_aggregator_spec ⟨some "key", "gemini-2.0-flash"⟩).sub_agents ≠ [] :=
  composite_output_keys_unique ⟨some "key", "gemini-2.0-flash"⟩ _ _ rfl rfl

/-- C2: any input with at least one capitalized token (an entity per the
extraction rule), at least one keyword longer than four characters, a
recognized domain term (content type other than "general"), and between 5
and 1000 words scores 100 and is valid: the length rule follows because five
words, one of which has five or more characters, force at least thirteen
characters of input. -/
theorem full_marks_for_rich_text (ts1 ts2 : String) (text : List Char)
    (hent : entitiesOf text ≠ [])
    (hkw : keywordsOf text ≠ [])
    (hct : contentTypeOf text ≠ "general")
    (hwc5 : 5 ≤ (splitWords text).length)
    (hwc1000 : (splitWords text).length ≤ 1000) :
    (validate_data ts2 (extract_data ts1 text).toValidateInput).quality_score = 100
      ∧ (validate_data ts2 (extract_data ts1 text).toValidateInput).is_valid = true := by
  have hword : ∃ w ∈ splitWords text, 4 < w.length := by
    rcases hfil : (splitWords text).filter (fun w => decide (w.length > 4)) with _ | ⟨a, t⟩
    · exact absurd (by simp [keywordsOf, hfil]) hkw
    · have ha : a ∈ (splitWords text).filter (fun w => decide (w.length > 4)) := by
        rw [hfil]; exact List.mem_cons_self a t
      have := List.mem_filter.mp ha
      exact ⟨a, this.1, by simpa using this.2⟩
  obtain ⟨w, hwmem, hwlen⟩ := hword
  have hchar : 13 ≤ text.length :=
    charCount_lower_bound text w hwmem (by omega) hwc5
  have h1 : rule1Pass (extract_data ts1 text).extracted_data = true := by
    simp only [rule1Pass, extract_data, Option.getD_some, ge_iff_le, decide_eq_true_eq]
    exact_mod_cast Nat.le_trans (by omega) hchar
  have h2 : rule2Pass (extract_data ts1 text).extracted_data = true := by
    have hlen : 0 < (entitiesOf text).length := List.length_pos.mpr hent
    simp only [rule2Pass, extract_data, gt_iff_lt, List.length_append, decide_eq_true_eq]
    omega
  have h3 : rule3Pass (extract_data ts1 text).extracted_data = true := by
    simp only [rule3Pass, extract_data, ne_eq, Option.some.injEq, decide_eq_true_eq]
    exact hct
  have h4 : rule4Pass (extract_data ts1 text).toValidateInput = true := by
    simp only [rule4Pass, ExtractResult.toValidateInput, extract_data, Option.getD_some,
      decide_eq_true_eq]
    constructor
    · exact_mod_cast hwc5
    · exact_mod_cast hwc1000
  rw [validate_data_eq_of_some ts2 (extract_data ts1 text).toValidateInput
    (extract_data ts1 text).extracted_data rfl]
  rw [h1, h2, h3, h4]
  simp

/-- C2 witness: a six-word sentence with a capitalized entity, long
keywords and the domain term "sales". -/
theorem full_marks_for_rich_text_witness :
    (validate_data "t1" (extract_data "t0" "Alice reports sales growth quickly today".toList).toValidateInput).quality_score = 100
      ∧ (validate_data "t1" (extract_data "t0" "Alice reports sales growth quickly today".toList).toValidateInput).is_valid = true :=
  full_marks_for_rich_text "t0" "t1" "Alice reports sales growth quickly today".toList
    (by decide) (by decide) (by decide) (by decide) (by decide)

/-- C3: for the three-branch aggregator, merging any completed-branch list
that is a permutation of the branch outcomes (one outcome per configured
output key, in any completion order) yields exactly one entry per configured
key — weather_info, news_info, stock_info — with each branch's own outcome;
in particular, when the news branch fails, the merged mapping still carries
the other branches' results plus the error entry, and the merge is a total
function, so the join completes. -/
theorem parallel_merge_complete (cfg : Config) (a : ParallelAgentSpec)
    (ha : create_data_aggregator cfg = Except.ok a)
    (f : String → BranchOutcome) (completed : List (String × BranchOutcome))
    (hperm : completed.Perm
      (a.sub_agents.map (fun ag => (ag.output_key, f ag.output_key)))) :
    mergeParallel a.sub_agents completed
        = [("weather_info", f "weather_info"), ("news_info", f "news_info"),
           ("stock_info", f "stock_info")]
      ∧ (mergeParallel a.sub_agents completed).map Prod.fst
          = ["weather_info", "news_info", "stock_info"]
      ∧ (mergeParallel a.sub_agents completed).length = a.sub_agents.length
      ∧ (∀ m, f "news_info" = BranchOutcome.err m →
          ("news_info", BranchOutcome.err m) ∈ mergeParallel a.sub_agents completed
            ∧ ("weather_info", f "weather_info") ∈ mergeParallel a.sub_agents completed
            ∧ ("stock_info", f "stock_info") ∈ mergeParallel a.sub_agents completed) := by
  cases hv : validate_config cfg
  · simp [create_data_aggregator, hv] at ha
  · simp [create_data_aggregator, hv] at ha
    subst ha
    have hA : (data_aggregator_spec cfg).sub_agents.map (fun ag => (ag.output_key, f ag.output_key))
        = [("weather_info", f "weather_info"), ("news_info", f "news_info"),
           ("stock_info", f "stock_info")] := rfl
    rw [hA] at hperm
    have hndc : (completed.map Prod.fst).Nodup := by
      refine (List.Perm.nodup_iff (hperm.map Prod.fst)).mpr ?_
      show (["weather_info", "news_info", "stock_info"] : List String).Nodup
      decide
    have hW : lookupOutcome "weather_info" completed = f "weather_info" :=
      lookupOutcome_of_mem completed "weather_info" (f "weather_info")
        (hperm.mem_iff.mpr (by simp)) hndc
    have hN : lookupOutcome "news_info" completed = f "news_info" :=
      lookupOutcome_of_mem completed "news_info" (f "news_info")
        (hperm.mem_iff.mpr (by simp)) hndc
    have hS : lookupOutcome "stock_info" completed = f "stock_info" :=
      lookupOutcome_of_mem completed "stock_info" (f "stock_info")
        (hperm.mem_iff.mpr (by simp)) hndc
    have hmerge : mergeParallel (data_aggregator_spec cfg).sub_agents completed
        = [("weather_info", f "weather_info"), ("news_info", f "news_info"),
           ("stock_info", f "stock_info")] := by
      show [("weather_info", lookupOutcome "weather_info" completed),
            ("news_info", lookupOutcome "news_info" completed),
            ("stock_info", lookupOutcome "stock_info" completed)] = _
      rw [hW, hN, hS]
    refine ⟨hmerge, by rw [hmerge]; rfl, by rw [hmerge]; rfl, ?_⟩
    intro m hm
    rw [hmerge, hm]
    refine ⟨by simp, by simp, by simp⟩

/-- C3 witness: the aggregator's three branches completing out of order,
with the news branch failing; the merged mapping still has all three keys in
configuration order, carrying the error entry for news. -/
theorem parallel_merge_complete_witness :
    mergeParallel (data_aggregator_spec ⟨some "key", "gemini-2.0-flash"⟩).sub_agents
        [("stock_info", BranchOutcome.ok "stock payload"),
         ("weather_info", BranchOutcome.ok "weather payload"),
         ("news_info", BranchOutcome.err "boom")]
      = [("weather_info", BranchOutcome.ok "weather payload"),
         ("news_info", BranchOutcome.err "boom"),
         ("stock_info", BranchOutcome.ok "stock payload")] :=
  (parallel_merge_complete ⟨some "key", "gemini-2.0-flash"⟩
    (data_aggregator_spec ⟨some "key", "gemini-2.0-flash"⟩) rfl
    (fun k => if k = "news_info" then BranchOutcome.err "boom"
      else if k = "weather_info" then BranchOutcome.ok "weather payload"
      else BranchOutcome.ok "stock payload")
    [("stock_info", BranchOutcome.ok "stock payload"),
     ("weather_info", BranchOutcome.ok "weather payload"),
     ("news_info", BranchOutcome.err "boom")]
    (by decide)).1

end ADKSamples
